import Mathlib

/-!
# Verification of `qbraid_qir/cirq/elements.py`

A shallow embedding of the Cirq-to-QIR module elements: the module-ID
generator (`generate_module_id`, built on `hashlib.sha256` and
`cirq.to_json`), the circuit-element classes (`_Register`, `_Operation`),
the `CirqModule` factory (`from_circuit`) and its four-phase visitor
traversal (`accept`).

External collaborators are embedded at the interface granularity the core
uses them:
* `hashlib.sha256(...).hexdigest()` is embedded as a full executable
  SHA-256 over byte lists (validated against the FIPS 180-4 test vectors
  during development);
* `cirq.Circuit` is embedded as its observable interface: the qubit set
  (`all_qubits`), the ordered operation list (`all_operations`), and the
  result of the external serializer `cirq.to_json` on the circuit (either
  the canonical JSON text or a raised serialization error);
* `pyqir.Module` is embedded as the handle interface the core consumes: a
  module constructible from a context and a name, exposing the stored name
  through its `source_filename` field.

Python exceptions are modelled with `Except`/error components: fallible
operations return the events they performed together with an optional
raised exception, and callers propagate errors without handling them, as
the Python source has no try/except.
-/

namespace QbraidQir

/-! ## SHA-256 (`hashlib.sha256`) -/

/-- Reduce a natural number modulo 2^32, the word size of SHA-256. -/
def w32 (n : Nat) : Nat := n % 4294967296

/-- Rotate a 32-bit word right by n bits. -/
def rotr (n x : Nat) : Nat := w32 ((x >>> n) ||| (x <<< (32 - n)))

def bsig0 (x : Nat) : Nat := (rotr 2 x) ^^^ (rotr 13 x) ^^^ (rotr 22 x)

def bsig1 (x : Nat) : Nat := (rotr 6 x) ^^^ (rotr 11 x) ^^^ (rotr 25 x)

def ssig0 (x : Nat) : Nat := (rotr 7 x) ^^^ (rotr 18 x) ^^^ (x >>> 3)

def ssig1 (x : Nat) : Nat := (rotr 17 x) ^^^ (rotr 19 x) ^^^ (x >>> 10)

def chFn (x y z : Nat) : Nat := (x &&& y) ^^^ ((x ^^^ 4294967295) &&& z)

def majFn (x y z : Nat) : Nat := (x &&& y) ^^^ (x &&& z) ^^^ (y &&& z)

/-- The eight working variables of the SHA-256 compression function. -/
structure Hash8 where
  a : Nat
  b : Nat
  c : Nat
  d : Nat
  e : Nat
  f : Nat
  g : Nat
  h : Nat
deriving DecidableEq

/-- SHA-256 initial hash value. -/
def initH : Hash8 :=
  ⟨0x6a09e667, 0xbb67ae85, 0x3c6ef372, 0xa54ff53a,
   0x510e527f, 0x9b05688c, 0x1f83d9ab, 0x5be0cd19⟩

/-- SHA-256 round constants, assembled eight words at a time in FIPS 180-4
order. -/
def K : List Nat :=
  [0x428a2f98, 0x71374491, 0xb5c0fbcf, 0xe9b5dba5, 0x3956c25b, 0x59f111f1, 0x923f82a4, 0xab1c5ed5]
  ++ [0xd807aa98, 0x12835b01, 0x243185be, 0x550c7dc3, 0x72be5d74, 0x80deb1fe, 0x9bdc06a7, 0xc19bf174]
  ++ [0xe49b69c1, 0xefbe4786, 0x0fc19dc6, 0x240ca1cc, 0x2de92c6f, 0x4a7484aa, 0x5cb0a9dc, 0x76f988da]
  ++ [0x983e5152, 0xa831c66d, 0xb00327c8, 0xbf597fc7, 0xc6e00bf3, 0xd5a79147, 0x06ca6351, 0x14292967]
  ++ [0x27b70a85, 0x2e1b2138, 0x4d2c6dfc, 0x53380d13, 0x650a7354, 0x766a0abb, 0x81c2c92e, 0x92722c85]
  ++ [0xa2bfe8a1, 0xa81a664b, 0xc24b8b70, 0xc76c51a3, 0xd192e819, 0xd6990624, 0xf40e3585, 0x106aa070]
  ++ [0x19a4c116, 0x1e376c08, 0x2748774c, 0x34b0bcb5, 0x391c0cb3, 0x4ed8aa4a, 0x5b9cca4f, 0x682e6ff3]
  ++ [0x748f82ee, 0x78a5636f, 0x84c87814, 0x8cc70208, 0x90befffa, 0xa4506ceb, 0xbef9a3f7, 0xc67178f2]

/-- Pack a big-endian byte list into 32-bit words, four bytes per word. -/
def bytesToWords : List Nat → List Nat
  | b0 :: b1 :: b2 :: b3 :: rest =>
      ((b0 <<< 24) ||| (b1 <<< 16) ||| (b2 <<< 8) ||| b3) :: bytesToWords rest
  | _ => []

/-- Extend the sixteen block words into the 64-word message schedule. -/
def schedule (w16 : List Nat) : List Nat :=
  (List.range 48).foldl
    (fun ws _ =>
      let n := ws.length
      ws ++ [w32 (ssig1 (ws.getD (n - 2) 0) + ws.getD (n - 7) 0 +
                  ssig0 (ws.getD (n - 15) 0) + ws.getD (n - 16) 0)])
    w16

/-- One round of the SHA-256 compression function. -/
def roundStep (s : Hash8) (k w : Nat) : Hash8 :=
  let t1 := w32 (s.h + bsig1 s.e + chFn s.e s.f s.g + k + w)
  let t2 := w32 (bsig0 s.a + majFn s.a s.b s.c)
  ⟨w32 (t1 + t2), s.a, s.b, s.c, w32 (s.d + t1), s.e, s.f, s.g⟩

/-- Run the 64 compression rounds over paired round constants and schedule words. -/
def rounds (s : Hash8) : List Nat → List Nat → Hash8
  | k :: ks, w :: ws => rounds (roundStep s k w) ks ws
  | _, _ => s

/-- Compress one 64-byte block into the running hash state. -/
def compressBlock (s : Hash8) (block : List Nat) : Hash8 :=
  let t := rounds s K (schedule (bytesToWords block))
  ⟨w32 (s.a + t.a), w32 (s.b + t.b), w32 (s.c + t.c), w32 (s.d + t.d),
   w32 (s.e + t.e), w32 (s.f + t.f), w32 (s.g + t.g), w32 (s.h + t.h)⟩

/-- Fold the compression function over successive 64-byte blocks. -/
def sha256Blocks (s : Hash8) (msg : List Nat) : Hash8 :=
  match msg with
  | [] => s
  | b :: rest => sha256Blocks (compressBlock s (List.take 64 (b :: rest))) (List.drop 64 (b :: rest))
termination_by msg.length
decreasing_by simp [List.length_drop]; omega

/-- The big-endian length suffix of SHA-256 padding: eight bytes holding the bit length. -/
def lenBytes (bitLen : Nat) : List Nat :=
  [(bitLen >>> 56) % 256, (bitLen >>> 48) % 256, (bitLen >>> 40) % 256, (bitLen >>> 32) % 256,
   (bitLen >>> 24) % 256, (bitLen >>> 16) % 256, (bitLen >>> 8) % 256, bitLen % 256]

/-- SHA-256 padding: append 0x80, zero bytes up to 56 mod 64, then the 64-bit bit length. -/
def padMessage (msg : List Nat) : List Nat :=
  let len := msg.length
  let zeros := (120 - ((len + 1) % 64)) % 64
  msg ++ [0x80] ++ List.replicate zeros 0 ++ lenBytes (8 * len)

/-- Unpack each 32-bit word into four big-endian bytes. -/
def wordsToBytes : List Nat → List Nat
  | [] => []
  | w :: ws => [(w >>> 24) % 256, (w >>> 16) % 256, (w >>> 8) % 256, w % 256] ++ wordsToBytes ws

/-- The SHA-256 digest of a byte string, as a list of 32 bytes.
Embeds `hashlib.sha256(data).digest()`. -/
def sha256 (msg : List Nat) : List Nat :=
  let s := sha256Blocks initH (padMessage msg)
  wordsToBytes [s.a, s.b, s.c, s.d, s.e, s.f, s.g, s.h]

/-- Lowercase hex rendering of one byte, as Python formats digest bytes. -/
def byteToHex (b : Nat) : List Char := [Nat.digitChar (b / 16), Nat.digitChar (b % 16)]

def bytesToHexChars : List Nat → List Char
  | [] => []
  | b :: bs => byteToHex b ++ bytesToHexChars bs

/-- Embeds `hashlib.sha256(data).hexdigest()`: the lowercase-hex string of the digest. -/
def sha256_hexdigest (msg : List Nat) : String := String.mk (bytesToHexChars (sha256 msg))

/-! ## Python string helpers -/

/-- UTF-8 encoding of one character; embeds Python `str.encode()` per code point. -/
def utf8EncodeChar (c : Char) : List Nat :=
  let n := c.toNat
  if n < 0x80 then [n]
  else if n < 0x800 then [0xC0 ||| (n >>> 6), 0x80 ||| (n &&& 0x3F)]
  else if n < 0x10000 then
    [0xE0 ||| (n >>> 12), 0x80 ||| ((n >>> 6) &&& 0x3F), 0x80 ||| (n &&& 0x3F)]
  else
    [0xF0 ||| (n >>> 18), 0x80 ||| ((n >>> 12) &&& 0x3F),
     0x80 ||| ((n >>> 6) &&& 0x3F), 0x80 ||| (n &&& 0x3F)]

/-- Embeds Python `str.encode()` (UTF-8) on a whole string. -/
def utf8Encode (s : String) : List Nat := s.data.flatMap utf8EncodeChar

/-- Embeds Python `str.isalnum` on single characters. On the ASCII range the
Python predicate coincides with ASCII-alphanumeric; `generate_module_id` only
ever applies it to lowercase hex digest characters, which are ASCII. -/
def isalnum (c : Char) : Bool := c.isAlphanum

/-- The sixteen characters a lowercase hex digest is drawn from. -/
def hexAlphabet : String := "0123456789abcdef"

/-! ## External interfaces: `cirq` and `pyqir`

The core consumes `cirq.Circuit` through three observations only:
`all_qubits()` (a frozenset), `all_operations()` (an ordered enumeration)
and the canonical serializer `cirq.to_json`. A circuit value is embedded
as exactly these observations; `to_json` carries the serializer outcome
for this circuit (the JSON text, or the exception it raises on an
unserializable circuit). -/

/-- Exception raised by `cirq.to_json` when a circuit cannot be serialized
(e.g. an unsupported custom gate). -/
inductive JsonError where
  | unserializable (msg : String)
deriving DecidableEq

namespace cirq

/-- The observable interface of `cirq.Circuit`, parametrized by qubit and
operation types. -/
structure Circuit (Q Op : Type) where
  all_qubits : Finset Q
  all_operations : List Op
  to_json : Except JsonError String

/-- Embeds `cirq.to_json(circuit)`: the external canonical serializer applied to the
circuit; returns the JSON text or raises a serialization error. -/
def to_json {Q Op : Type} (circuit : Circuit Q Op) : Except JsonError String :=
  circuit.to_json

end cirq

namespace pyqir

/-- The `pyqir.Context` handle; carries no data the core observes. -/
structure Context where
deriving DecidableEq

/-- The `pyqir.Module` handle interface the core consumes: constructed from a
context and a name, and exposing the stored name as `source_filename`. -/
structure Module where
  source_filename : String
deriving DecidableEq

/-- Embeds `pyqir.Module(context, name)`: a fresh IR module handle storing the given
name, read back through `source_filename`. -/
def Module.new (_ctx : Context) (name : String) : Module :=
  { source_filename := name }

end pyqir

/-! ## `generate_module_id` (elements.py lines 24-44) -/

/-- Embeds `generate_module_id(circuit)`: serialize the circuit with
`cirq.to_json`, SHA-256 the UTF-8 bytes, hex-encode, keep alphanumeric
characters, truncate to 7, and prefix `circuit-`. A serialization failure in
`cirq.to_json` propagates (the Python function has no handler). -/
def generate_module_id {Q Op : Type} (circuit : cirq.Circuit Q Op) : Except JsonError String :=
  match cirq.to_json circuit with
  | .error e => .error e
  | .ok serialized_circuit =>
    let hash_hex := sha256_hexdigest (utf8Encode serialized_circuit)
    let alphanumeric_hash := String.mk (hash_hex.data.filter isalnum)
    let truncated_hash := String.mk (alphanumeric_hash.data.take 7)
    .ok ("circuit-" ++ truncated_hash)

/-! ## Circuit elements (elements.py lines 47-70)

`_Register.__init__` executes `self._register: register`, which is a bare
PEP 526 variable annotation, not an assignment: the `_register` attribute
is never stored on the instance, so the later attribute read in
`_Register.accept` raises `AttributeError`. The instance attribute is
embedded as an `Option`: `none` means the attribute is absent. -/

/-- The closed variant of circuit element instances: `_Register` (whose
`_register` attribute may be absent, see above) and `_Operation` (which
stores its `_operation` attribute normally). -/
inductive CircuitElement (Q Op : Type) where
  | register (register_attr : Option (Finset Q))
  | operation (operation : Op)
deriving DecidableEq

/-- Embeds `_Register.__init__(self, register)`: it executes the bare annotation
`self._register: register`, storing nothing; the constructed instance has no
`_register` attribute. -/
def Register_init {Q Op : Type} (_register : Finset Q) : CircuitElement Q Op :=
  CircuitElement.register none

/-- Embeds `_Operation.__init__(self, operation)`: it stores the operation in
`self._operation`. -/
def Operation_init {Q Op : Type} (operation : Op) : CircuitElement Q Op :=
  CircuitElement.operation operation

/-! ## `CirqModule` (elements.py lines 73-127) -/

/-- The `CirqModule` aggregate: name, IR module handle, qubit count and the
ordered element sequence, as stored by `CirqModule.__init__`. -/
structure CirqModule (Q Op : Type) where
  name : String
  module : pyqir.Module
  num_qubits : Nat
  elements : List (CircuitElement Q Op)
deriving DecidableEq

/-- One observed visitor-protocol call, recording the argument it was passed. -/
inductive Event (Q Op : Type) where
  | visit_cirq_module (m : CirqModule Q Op)
  | visit_register (r : Finset Q)
  | visit_operation (op : Op)
  | record_output (m : CirqModule Q Op)
  | finalize
deriving DecidableEq

/-- A visitor: the five-method protocol `accept` drives. Each method either
returns normally (`ok`) or raises an exception of type `E` (`error`). -/
structure Visitor (Q Op E : Type) where
  visit_cirq_module : CirqModule Q Op → Except E Unit
  visit_register : Finset Q → Except E Unit
  visit_operation : Op → Except E Unit
  record_output : CirqModule Q Op → Except E Unit
  finalize : Unit → Except E Unit

/-- A Python exception surfacing out of `accept`: either the interpreter-level
`AttributeError` from the missing `_register` attribute, or an exception
raised by a visitor method. -/
inductive PyException (E : Type) where
  | attributeError
  | raised (e : E)
deriving DecidableEq

/-- Embeds `_CircuitElement.accept(self, visitor)` for each concrete element class:
the pair of (visitor calls performed, exception raised if any).
`_Register.accept` reads `self._register` before calling the visitor; when
the attribute is absent the read raises `AttributeError` and `visit_register`
is never called. -/
def CircuitElement.accept {Q Op E : Type} (self : CircuitElement Q Op)
    (visitor : Visitor Q Op E) : List (Event Q Op) × Option (PyException E) :=
  match self with
  | .register none => ([], some PyException.attributeError)
  | .register (some r) =>
      ([Event.visit_register r],
       match visitor.visit_register r with
       | .ok _ => none
       | .error e => some (PyException.raised e))
  | .operation op =>
      ([Event.visit_operation op],
       match visitor.visit_operation op with
       | .ok _ => none
       | .error e => some (PyException.raised e))

/-- The element-traversal loop of `CirqModule.accept`: visit each element in
order, stopping at (and propagating) the first raised exception. -/
def acceptElements {Q Op E : Type} (visitor : Visitor Q Op E) :
    List (CircuitElement Q Op) → List (Event Q Op) × Option (PyException E)
  | [] => ([], none)
  | el :: rest =>
    match el.accept visitor with
    | (tr, some e) => (tr, some e)
    | (tr, none) =>
      let (tr2, e2) := acceptElements visitor rest
      (tr ++ tr2, e2)

/-- Embeds `CirqModule.from_circuit(circuit, module=None)`: build the element list
(one `_Register` from `all_qubits()`, then one `_Operation` per entry of
`all_operations()` in order); when no handle is supplied, create a fresh
`pyqir.Module` named by `generate_module_id` (propagating any serialization
failure); read the resulting name back from the handle. -/
def CirqModule.from_circuit {Q Op : Type} (circuit : cirq.Circuit Q Op)
    (module : Option pyqir.Module) : Except JsonError (CirqModule Q Op) :=
  let elements : List (CircuitElement Q Op) :=
    Register_init circuit.all_qubits :: circuit.all_operations.map Operation_init
  match module with
  | some m =>
      .ok { name := m.source_filename, module := m,
            num_qubits := circuit.all_qubits.card, elements := elements }
  | none =>
      match generate_module_id circuit with
      | .error e => .error e
      | .ok mid =>
          let m := pyqir.Module.new {} mid
          .ok { name := m.source_filename, module := m,
                num_qubits := circuit.all_qubits.card, elements := elements }

/-- Embeds `CirqModule.accept(self, visitor)`: the four-phase traversal —
`visit_cirq_module(self)`, then each element in order, then
`record_output(self)`, then `finalize()` — recording the calls performed and
stopping at the first raised exception, which propagates unmodified. -/
def CirqModule.accept {Q Op E : Type} (self : CirqModule Q Op)
    (visitor : Visitor Q Op E) : List (Event Q Op) × Option (PyException E) :=
  match visitor.visit_cirq_module self with
  | .error e => ([Event.visit_cirq_module self], some (PyException.raised e))
  | .ok _ =>
    match acceptElements visitor self.elements with
    | (tr, some e) => (Event.visit_cirq_module self :: tr, some e)
    | (tr, none) =>
      match visitor.record_output self with
      | .error e =>
          (Event.visit_cirq_module self :: tr ++ [Event.record_output self],
           some (PyException.raised e))
      | .ok _ =>
        match visitor.finalize () with
        | .error e =>
            (Event.visit_cirq_module self :: tr ++ [Event.record_output self, Event.finalize],
             some (PyException.raised e))
        | .ok _ =>
            (Event.visit_cirq_module self :: tr ++ [Event.record_output self, Event.finalize],
             none)

/-! ## Concrete instances used to exercise the definitions -/

/-- A visitor whose five methods all return normally. -/
def okVisitor (Q Op E : Type) : Visitor Q Op E where
  visit_cirq_module := fun _ => Except.ok ()
  visit_register := fun _ => Except.ok ()
  visit_operation := fun _ => Except.ok ()
  record_output := fun _ => Except.ok ()
  finalize := fun _ => Except.ok ()

/-- A caller-supplied IR module handle with a caller-chosen name. -/
def h0 : pyqir.Module := pyqir.Module.new {} "handle-name"

/-- A concrete circuit over `Nat` qubits and opaque `Nat` operations: two
qubits, one operation, and a successful canonical serialization. -/
def cJ : cirq.Circuit Nat Nat where
  all_qubits := {0, 1}
  all_operations := [7]
  to_json := Except.ok "json-of-cJ"

/-- The `CirqModule` that `from_circuit cJ (some h0)` builds. -/
def cmJ : CirqModule Nat Nat where
  name := "handle-name"
  module := h0
  num_qubits := 2
  elements := [CircuitElement.register none, CircuitElement.operation 7]

/-- A circuit whose canonical serialization raises (an unsupported custom
gate). -/
def cbad : cirq.Circuit Nat Nat where
  all_qubits := ∅
  all_operations := []
  to_json := Except.error (JsonError.unserializable "unsupported custom gate")

/-- The `CirqModule` that `from_circuit cbad (some h0)` builds. -/
def cmBad : CirqModule Nat Nat where
  name := "handle-name"
  module := h0
  num_qubits := 0
  elements := [CircuitElement.register none]

/-- A module holding only operation elements, used to exercise the abort
behaviour of the element-traversal phase on visitor exceptions. -/
def opsModule : CirqModule Nat Nat where
  name := "ops"
  module := h0
  num_qubits := 0
  elements := [CircuitElement.operation 1, CircuitElement.operation 2]

/-- A visitor raising in `visit_cirq_module`. -/
def vFailModule : Visitor Nat Nat String :=
  { okVisitor Nat Nat String with visit_cirq_module := fun _ => Except.error "module-raise" }

/-- A visitor raising on `visit_operation 1`. -/
def vFailOp : Visitor Nat Nat String :=
  { okVisitor Nat Nat String with
      visit_operation := fun op => if op = 1 then Except.error "op-raise" else Except.ok () }

/-- A visitor raising in `record_output`. -/
def vFailRecord : Visitor Nat Nat String :=
  { okVisitor Nat Nat String with record_output := fun _ => Except.error "record-raise" }

/-- A visitor raising in `finalize`. -/
def vFailFinal : Visitor Nat Nat String :=
  { okVisitor Nat Nat String with finalize := fun _ => Except.error "final-raise" }

/-! ## Digest shape lemmas -/

/-- The sixteen hex digits land in the lowercase hex alphabet. -/
theorem digitChar_mem_hex : ∀ n : Nat, n < 16 → Nat.digitChar n ∈ hexAlphabet.data := by decide

/-- Every lowercase hex character is alphanumeric. -/
theorem hex_isalnum : ∀ c ∈ hexAlphabet.data, isalnum c = true := by decide

/-- Word unpacking produces bytes. -/
theorem wordsToBytes_lt (ws : List Nat) : ∀ b ∈ wordsToBytes ws, b < 256 := by
  induction ws with
  | nil => intro b hb; simp [wordsToBytes] at hb
  | cons w ws ih =>
    intro b hb
    simp only [wordsToBytes, List.cons_append, List.nil_append, List.mem_cons] at hb
    rcases hb with rfl | rfl | rfl | rfl | h
    · exact Nat.mod_lt _ (by norm_num)
    · exact Nat.mod_lt _ (by norm_num)
    · exact Nat.mod_lt _ (by norm_num)
    · exact Nat.mod_lt _ (by norm_num)
    · exact ih b h

/-- Word unpacking yields four bytes per word. -/
theorem wordsToBytes_length (ws : List Nat) : (wordsToBytes ws).length = 4 * ws.length := by
  induction ws with
  | nil => rfl
  | cons w ws ih =>
    simp only [wordsToBytes, List.cons_append, List.nil_append, List.length_cons, ih,
      List.length_append]
    omega

/-- Hex rendering yields two characters per byte. -/
theorem bytesToHexChars_length (bs : List Nat) : (bytesToHexChars bs).length = 2 * bs.length := by
  induction bs with
  | nil => rfl
  | cons b bs ih =>
    simp only [bytesToHexChars, byteToHex, List.cons_append, List.nil_append, List.length_cons,
      ih, List.length_append]
    omega

/-- Hex rendering of bytes only produces lowercase hex characters. -/
theorem bytesToHexChars_mem (bs : List Nat) (hb : ∀ b ∈ bs, b < 256) :
    ∀ c ∈ bytesToHexChars bs, c ∈ hexAlphabet.data := by
  induction bs with
  | nil => intro c hc; simp [bytesToHexChars] at hc
  | cons b bs ih =>
    intro c hc
    simp only [bytesToHexChars, byteToHex, List.cons_append, List.nil_append,
      List.mem_cons] at hc
    have hb256 : b < 256 := hb b (List.mem_cons_self b bs)
    rcases hc with rfl | rfl | h
    · exact digitChar_mem_hex _ ((Nat.div_lt_iff_lt_mul (by norm_num)).mpr (by omega))
    · exact digitChar_mem_hex _ (Nat.mod_lt _ (by norm_num))
    · exact ih (fun x hx => hb x (List.mem_cons_of_mem b hx)) c h

/-- Unpacking the eight final state words yields 32 bytes. -/
theorem state_bytes_length (s : Hash8) :
    (wordsToBytes [s.a, s.b, s.c, s.d, s.e, s.f, s.g, s.h]).length = 32 := by
  rw [wordsToBytes_length]
  rfl

/-- The SHA-256 digest always holds 32 bytes. -/
theorem sha256_length (msg : List Nat) : (sha256 msg).length = 32 :=
  state_bytes_length (sha256Blocks initH (padMessage msg))

/-- Every entry of the SHA-256 digest is a byte. -/
theorem sha256_lt (msg : List Nat) : ∀ b ∈ sha256 msg, b < 256 := by
  intro b hb
  exact wordsToBytes_lt _ b hb

/-- The characters of the hexdigest string. -/
theorem sha256_hexdigest_data (msg : List Nat) :
    (sha256_hexdigest msg).data = bytesToHexChars (sha256 msg) := rfl

/-- A SHA-256 hexdigest always holds 64 characters. -/
theorem sha256_hexdigest_length (msg : List Nat) : (sha256_hexdigest msg).data.length = 64 := by
  rw [sha256_hexdigest_data, bytesToHexChars_length, sha256_length]

/-- Every character of a SHA-256 hexdigest is a lowercase hex character. -/
theorem sha256_hexdigest_mem (msg : List Nat) :
    ∀ c ∈ (sha256_hexdigest msg).data, c ∈ hexAlphabet.data := by
  rw [sha256_hexdigest_data]
  exact bytesToHexChars_mem _ (sha256_lt msg)

/-- The alphanumeric filter keeps every character of a SHA-256 hexdigest. -/
theorem sha256_hexdigest_filter (msg : List Nat) :
    (sha256_hexdigest msg).data.filter isalnum = (sha256_hexdigest msg).data :=
  List.filter_eq_self.mpr fun c hc => hex_isalnum c (sha256_hexdigest_mem msg c hc)

/-- Normal form of `generate_module_id` on a circuit whose serialization
succeeds. -/
theorem generate_module_id_ok {Q Op : Type} (c : cirq.Circuit Q Op) (s : String)
    (h : cirq.to_json c = Except.ok s) :
    generate_module_id c =
      Except.ok (String.mk ("circuit-".data ++
        ((sha256_hexdigest (utf8Encode s)).data.filter isalnum).take 7)) := by
  unfold generate_module_id
  rw [h]
  rfl

/-! ## Claim theorems: module-ID generator -/

/-- C4: for every circuit whose serialization succeeds, `generate_module_id`
returns `circuit-` followed by exactly 7 alphanumeric characters, so its
length is always 8 + 7 = 15. -/
theorem C4_module_id_format {Q Op : Type} (c : cirq.Circuit Q Op) (s : String)
    (h : cirq.to_json c = Except.ok s) :
    ∃ mid : String, generate_module_id c = Except.ok mid ∧
      mid.length = 15 ∧
      mid.data.take 8 = "circuit-".data ∧
      (mid.data.drop 8).length = 7 ∧
      ∀ ch ∈ mid.data.drop 8, isalnum ch = true := by
  have hsuf : (((sha256_hexdigest (utf8Encode s)).data.filter isalnum).take 7).length = 7 := by
    rw [sha256_hexdigest_filter, List.length_take, sha256_hexdigest_length]
    decide
  have h8 : ("circuit-" : String).data.length = 8 := rfl
  refine ⟨_, generate_module_id_ok c s h, ?_, ?_, ?_, ?_⟩
  · show ("circuit-".data ++ ((sha256_hexdigest (utf8Encode s)).data.filter isalnum).take 7).length = 15
    rw [List.length_append, h8, hsuf]
  · show ("circuit-".data ++ ((sha256_hexdigest (utf8Encode s)).data.filter isalnum).take 7).take 8 = "circuit-".data
    exact List.take_left' h8
  · show (("circuit-".data ++ ((sha256_hexdigest (utf8Encode s)).data.filter isalnum).take 7).drop 8).length = 7
    rw [List.drop_left' h8, hsuf]
  · show ∀ ch ∈ ("circuit-".data ++ ((sha256_hexdigest (utf8Encode s)).data.filter isalnum).take 7).drop 8, isalnum ch = true
    rw [List.drop_left' h8]
    intro ch hch
    exact List.of_mem_filter (List.mem_of_mem_take hch)

/-- C4 witness: the format theorem applied to the concrete circuit `cJ`,
whose serialization succeeds. -/
theorem C4_witness :
    cirq.to_json cJ = Except.ok "json-of-cJ" ∧
    (∃ mid : String, generate_module_id cJ = Except.ok mid ∧
      mid.length = 15 ∧
      mid.data.take 8 = "circuit-".data ∧
      (mid.data.drop 8).length = 7 ∧
      ∀ ch ∈ mid.data.drop 8, isalnum ch = true) :=
  ⟨rfl, C4_module_id_format cJ "json-of-cJ" rfl⟩

/-- C5: `generate_module_id` is deterministic and pure — repeated calls on
the same circuit agree, and circuits with identical canonical serialized
forms receive identical IDs. -/
theorem C5_deterministic_pure {Q Op : Type} (c1 c2 : cirq.Circuit Q Op)
    (h : cirq.to_json c1 = cirq.to_json c2) :
    generate_module_id c1 = generate_module_id c1 ∧
    generate_module_id c1 = generate_module_id c2 :=
  ⟨rfl, by unfold generate_module_id; rw [h]⟩

/-- C5 witness: the determinism theorem applied to the concrete circuit
`cJ`. -/
theorem C5_witness :
    cirq.to_json cJ = cirq.to_json cJ ∧
    (generate_module_id cJ = generate_module_id cJ ∧
     generate_module_id cJ = generate_module_id cJ) :=
  ⟨rfl, C5_deterministic_pure cJ cJ rfl⟩

/-- C10: the alphanumeric filter inside `generate_module_id` is the identity
on a SHA-256 hexdigest — every digest character is one of the 16 lowercase
hex characters, which are all alphanumeric — so the 7-character suffix is
drawn from the 16-character hex alphabet (an ID space of 16^7, not 36^7). -/
theorem C10_hex_filter_identity (msg : List Nat) :
    hexAlphabet.length = 16 ∧
    (sha256_hexdigest msg).data.filter isalnum = (sha256_hexdigest msg).data ∧
    (∀ c ∈ (sha256_hexdigest msg).data, c ∈ hexAlphabet.data) ∧
    (∀ c ∈ ((sha256_hexdigest msg).data.filter isalnum).take 7, c ∈ hexAlphabet.data) := by
  refine ⟨rfl, sha256_hexdigest_filter msg, sha256_hexdigest_mem msg, ?_⟩
  intro c hc
  rw [sha256_hexdigest_filter] at hc
  exact sha256_hexdigest_mem msg c (List.mem_of_mem_take hc)

/-! ## Traversal lemmas -/

/-- Element traversal over a cons whose head succeeds. -/
theorem acceptElements_cons_ok {Q Op E : Type} (v : Visitor Q Op E)
    (el : CircuitElement Q Op) (rest : List (CircuitElement Q Op))
    (trEl : List (Event Q Op)) (h : el.accept v = (trEl, none)) :
    acceptElements v (el :: rest) =
      (trEl ++ (acceptElements v rest).1, (acceptElements v rest).2) := by
  rcases hr : acceptElements v rest with ⟨tr2, e2⟩
  simp [acceptElements, h, hr]

/-- Element traversal after a successful prefix appends the traversal of the
remaining elements. -/
theorem acceptElements_append_ok {Q Op E : Type} (v : Visitor Q Op E)
    (pre rest : List (CircuitElement Q Op)) (tr : List (Event Q Op))
    (h : acceptElements v pre = (tr, none)) :
    acceptElements v (pre ++ rest) =
      (tr ++ (acceptElements v rest).1, (acceptElements v rest).2) := by
  induction pre generalizing tr with
  | nil =>
    have htr : tr = [] := by
      have h' : (([], none) : List (Event Q Op) × Option (PyException E)) = (tr, none) := h
      exact (Prod.mk.injEq _ _ _ _ ▸ h').1.symm
    subst htr
    simp [acceptElements]
  | cons el pre ih =>
    rcases hel : el.accept v with ⟨trEl, errEl⟩
    cases errEl with
    | some e =>
      exfalso
      simp [acceptElements, hel] at h
    | none =>
      rcases hpre : acceptElements v pre with ⟨tr2, e2⟩
      have hcons := acceptElements_cons_ok v el pre trEl hel
      rw [hpre] at hcons
      rw [hcons] at h
      have htr : trEl ++ tr2 = tr := congrArg Prod.fst h
      have he2 : e2 = none := congrArg Prod.snd h
      subst he2
      have ih' := ih tr2 hpre
      have hgoal := acceptElements_cons_ok v el (pre ++ rest) trEl hel
      rw [ih'] at hgoal
      rw [List.cons_append, hgoal, ← htr, List.append_assoc]

/-- A failing element ends the element traversal at its own trace and
exception. -/
theorem acceptElements_cons_err {Q Op E : Type} (v : Visitor Q Op E)
    (el : CircuitElement Q Op) (post : List (CircuitElement Q Op))
    (trEl : List (Event Q Op)) (err : PyException E)
    (h : el.accept v = (trEl, some err)) :
    acceptElements v (el :: post) = (trEl, some err) := by
  simp [acceptElements, h]

/-- Behaviour of `accept` when `visit_cirq_module` raises. -/
theorem accept_phase1_err {Q Op E : Type} (m : CirqModule Q Op) (v : Visitor Q Op E) (e : E)
    (h : v.visit_cirq_module m = Except.error e) :
    m.accept v = ([Event.visit_cirq_module m], some (PyException.raised e)) := by
  unfold CirqModule.accept
  rw [h]

/-- Behaviour of `accept` when the element traversal raises. -/
theorem accept_phase2_err {Q Op E : Type} (m : CirqModule Q Op) (v : Visitor Q Op E)
    (tr : List (Event Q Op)) (err : PyException E)
    (h1 : v.visit_cirq_module m = Except.ok ())
    (h2 : acceptElements v m.elements = (tr, some err)) :
    m.accept v = (Event.visit_cirq_module m :: tr, some err) := by
  unfold CirqModule.accept
  rw [h1, h2]

/-- Behaviour of `accept` when `record_output` raises. -/
theorem accept_phase3_err {Q Op E : Type} (m : CirqModule Q Op) (v : Visitor Q Op E)
    (tr : List (Event Q Op)) (e : E)
    (h1 : v.visit_cirq_module m = Except.ok ())
    (h2 : acceptElements v m.elements = (tr, none))
    (h3 : v.record_output m = Except.error e) :
    m.accept v = (Event.visit_cirq_module m :: tr ++ [Event.record_output m],
                  some (PyException.raised e)) := by
  unfold CirqModule.accept
  rw [h1, h2, h3]

/-- Behaviour of `accept` when `finalize` raises. -/
theorem accept_phase4_err {Q Op E : Type} (m : CirqModule Q Op) (v : Visitor Q Op E)
    (tr : List (Event Q Op)) (e : E)
    (h1 : v.visit_cirq_module m = Except.ok ())
    (h2 : acceptElements v m.elements = (tr, none))
    (h3 : v.record_output m = Except.ok ())
    (h4 : v.finalize () = Except.error e) :
    m.accept v = (Event.visit_cirq_module m :: tr ++ [Event.record_output m, Event.finalize],
                  some (PyException.raised e)) := by
  unfold CirqModule.accept
  rw [h1, h2, h3, h4]

/-! ## Claim theorems: elements and traversal -/

/-- C1: evaluation of the code at a failing input. For the module built by
`from_circuit` from the concrete circuit `cJ`, `accept` with an all-ok
visitor performs only the `visit_cirq_module` call and then raises
`AttributeError` from the missing `_register` attribute of the first
element: `visit_register` is never invoked, contradicting the claimed
call sequence. -/
theorem C1_accept_raises_attribute_error :
    CirqModule.from_circuit cJ (some h0) = Except.ok cmJ ∧
    cmJ.accept (okVisitor Nat Nat String) =
      ([Event.visit_cirq_module cmJ], some PyException.attributeError) :=
  ⟨rfl, rfl⟩

/-- C2: evaluation of the code at a failing input. The element sequence of
`from_circuit cJ` has the claimed length `1 + 1` and order (one `_Register`
element first, then the operation elements in circuit order), but element 0
stores no qubit set at all: its `_register` attribute is absent (`none`)
because `_Register.__init__` only annotates, never assigns. -/
theorem C2_element_sequence_register_stores_nothing :
    CirqModule.from_circuit cJ (some h0) = Except.ok cmJ ∧
    cmJ.elements = [CircuitElement.register none, CircuitElement.operation 7] ∧
    cmJ.elements.length = 1 + cJ.all_operations.length :=
  ⟨rfl, rfl, rfl⟩

/-- C3: evaluation of the code at a failing input. Constructing a `_Register`
from the qubit set `{0, 1}` yields an instance without the `_register`
attribute, and its `accept` raises `AttributeError` before any visitor call:
`visit_register` is never invoked with the wrapped set. -/
theorem C3_register_accept_attribute_error :
    Register_init ({0, 1} : Finset Nat) = (CircuitElement.register none : CircuitElement Nat Nat) ∧
    CircuitElement.accept (Register_init ({0, 1} : Finset Nat) : CircuitElement Nat Nat)
        (okVisitor Nat Nat String) =
      ([], some PyException.attributeError) :=
  ⟨rfl, rfl⟩

/-- C6: the name of a `CirqModule` is read back from the IR module handle:
with a supplied handle the handle's stored `source_filename` wins; with no
handle the name is the stored name of a fresh handle named by
`generate_module_id`. -/
theorem C6_name_from_handle {Q Op : Type} (c : cirq.Circuit Q Op) (hmod : pyqir.Module)
    (s : String) (hs : cirq.to_json c = Except.ok s) :
    (∃ m : CirqModule Q Op, CirqModule.from_circuit c (some hmod) = Except.ok m ∧
       m.name = hmod.source_filename) ∧
    (∃ (m : CirqModule Q Op) (mid : String), generate_module_id c = Except.ok mid ∧
       CirqModule.from_circuit c none = Except.ok m ∧
       m.name = (pyqir.Module.new {} mid).source_filename) := by
  constructor
  · exact ⟨_, rfl, rfl⟩
  · obtain ⟨mid, hg⟩ : ∃ mid, generate_module_id c = Except.ok mid :=
      ⟨_, generate_module_id_ok c s hs⟩
    have hfc : CirqModule.from_circuit c none = Except.ok
        { name := (pyqir.Module.new {} mid).source_filename,
          module := pyqir.Module.new {} mid,
          num_qubits := c.all_qubits.card,
          elements := Register_init c.all_qubits :: c.all_operations.map Operation_init } := by
      unfold CirqModule.from_circuit
      rw [hg]
    exact ⟨_, mid, hg, hfc, rfl⟩

/-- C6 witness: the name theorem applied to the concrete circuit `cJ` and
handle `h0`. -/
theorem C6_witness :
    cirq.to_json cJ = Except.ok "json-of-cJ" ∧
    ((∃ m : CirqModule Nat Nat, CirqModule.from_circuit cJ (some h0) = Except.ok m ∧
        m.name = h0.source_filename) ∧
     (∃ (m : CirqModule Nat Nat) (mid : String), generate_module_id cJ = Except.ok mid ∧
        CirqModule.from_circuit cJ none = Except.ok m ∧
        m.name = (pyqir.Module.new {} mid).source_filename)) :=
  ⟨rfl, C6_name_from_handle cJ h0 "json-of-cJ" rfl⟩

/-- C7 counterexample: for the concrete circuit `cbad`, whose serialization
raises, `generate_module_id` does fail, yet `from_circuit cbad (some h0)`
succeeds — the generated ID is not computed when a handle is supplied, so
the claimed propagation of the serialization failure does not happen. -/
theorem C7_counterexample :
    cirq.to_json cbad = Except.error (JsonError.unserializable "unsupported custom gate") ∧
    generate_module_id cbad = Except.error (JsonError.unserializable "unsupported custom gate") ∧
    CirqModule.from_circuit cbad (some h0) = Except.ok cmBad :=
  ⟨rfl, rfl, rfl⟩

/-- C7 amended: when a handle is supplied, `from_circuit` never invokes
`generate_module_id` and succeeds even when the serialization would raise;
the serialization failure propagates only when no handle is supplied. -/
theorem C7_amended_no_id_with_handle {Q Op : Type} (c : cirq.Circuit Q Op)
    (hmod : pyqir.Module) (e : JsonError) (hfail : cirq.to_json c = Except.error e) :
    (CirqModule.from_circuit c (some hmod) = Except.ok
      { name := hmod.source_filename, module := hmod,
        num_qubits := c.all_qubits.card,
        elements := Register_init c.all_qubits :: c.all_operations.map Operation_init }) ∧
    generate_module_id c = Except.error e ∧
    CirqModule.from_circuit c none = Except.error e := by
  have hg : generate_module_id c = Except.error e := by
    unfold generate_module_id
    rw [hfail]
  refine ⟨rfl, hg, ?_⟩
  unfold CirqModule.from_circuit
  rw [hg]

/-- C7 witness: the amended theorem applied to the concrete unserializable
circuit `cbad` and handle `h0`. -/
theorem C7_witness :
    cirq.to_json cbad = Except.error (JsonError.unserializable "unsupported custom gate") ∧
    ((CirqModule.from_circuit cbad (some h0) = Except.ok
        { name := h0.source_filename, module := h0,
          num_qubits := cbad.all_qubits.card,
          elements := Register_init cbad.all_qubits :: cbad.all_operations.map Operation_init }) ∧
     generate_module_id cbad = Except.error (JsonError.unserializable "unsupported custom gate") ∧
     CirqModule.from_circuit cbad none =
       Except.error (JsonError.unserializable "unsupported custom gate")) :=
  ⟨rfl, C7_amended_no_id_with_handle cbad h0 (JsonError.unserializable "unsupported custom gate") rfl⟩

/-- C8: a visitor exception in any of the four phases of `accept` propagates
unmodified and aborts the remaining traversal: the returned call record ends
at the failing call — no later element is visited and no later protocol
method is invoked — and the exception surfaces as raised. -/
theorem C8_visitor_exception_aborts {Q Op E : Type} (m : CirqModule Q Op) (v : Visitor Q Op E) :
    (∀ e : E, v.visit_cirq_module m = Except.error e →
       m.accept v = ([Event.visit_cirq_module m], some (PyException.raised e))) ∧
    (∀ (pre post : List (CircuitElement Q Op)) (el : CircuitElement Q Op)
       (trPre trEl : List (Event Q Op)) (err : PyException E),
       v.visit_cirq_module m = Except.ok () →
       m.elements = pre ++ el :: post →
       acceptElements v pre = (trPre, none) →
       el.accept v = (trEl, some err) →
       m.accept v = (Event.visit_cirq_module m :: (trPre ++ trEl), some err)) ∧
    (∀ (tr : List (Event Q Op)) (e : E),
       v.visit_cirq_module m = Except.ok () →
       acceptElements v m.elements = (tr, none) →
       v.record_output m = Except.error e →
       m.accept v = (Event.visit_cirq_module m :: tr ++ [Event.record_output m],
                     some (PyException.raised e))) ∧
    (∀ (tr : List (Event Q Op)) (e : E),
       v.visit_cirq_module m = Except.ok () →
       acceptElements v m.elements = (tr, none) →
       v.record_output m = Except.ok () →
       v.finalize () = Except.error e →
       m.accept v = (Event.visit_cirq_module m :: tr ++ [Event.record_output m, Event.finalize],
                     some (PyException.raised e))) := by
  refine ⟨fun e he => accept_phase1_err m v e he, ?_, ?_, ?_⟩
  · intro pre post el trPre trEl err h1 helts hpre hel
    have hels : acceptElements v m.elements = (trPre ++ trEl, some err) := by
      rw [helts, acceptElements_append_ok v pre (el :: post) trPre hpre,
        acceptElements_cons_err v el post trEl err hel]
    exact accept_phase2_err m v (trPre ++ trEl) err h1 hels
  · intro tr e h1 h2 h3
    exact accept_phase3_err m v tr e h1 h2 h3
  · intro tr e h1 h2 h3 h4
    exact accept_phase4_err m v tr e h1 h2 h3 h4

/-- C8 witness: the abort theorem applied, phase by phase, to the concrete
module `opsModule` and visitors failing in each of the four phases. -/
theorem C8_witness :
    (vFailModule.visit_cirq_module opsModule = Except.error "module-raise" ∧
     opsModule.accept vFailModule =
       ([Event.visit_cirq_module opsModule], some (PyException.raised "module-raise"))) ∧
    (vFailOp.visit_cirq_module opsModule = Except.ok () ∧
     opsModule.elements = [] ++ CircuitElement.operation 1 :: [CircuitElement.operation 2] ∧
     acceptElements vFailOp [] = ([], none) ∧
     CircuitElement.accept (CircuitElement.operation 1) vFailOp =
       ([Event.visit_operation 1], some (PyException.raised "op-raise")) ∧
     opsModule.accept vFailOp =
       (Event.visit_cirq_module opsModule :: ([] ++ [Event.visit_operation 1]),
        some (PyException.raised "op-raise"))) ∧
    (opsModule.accept vFailRecord =
       (Event.visit_cirq_module opsModule ::
          [Event.visit_operation 1, Event.visit_operation 2] ++ [Event.record_output opsModule],
        some (PyException.raised "record-raise"))) ∧
    (opsModule.accept vFailFinal =
       (Event.visit_cirq_module opsModule ::
          [Event.visit_operation 1, Event.visit_operation 2] ++
            [Event.record_output opsModule, Event.finalize],
        some (PyException.raised "final-raise"))) :=
  ⟨⟨rfl, (C8_visitor_exception_aborts opsModule vFailModule).1 "module-raise" rfl⟩,
   ⟨rfl, rfl, rfl, rfl,
    (C8_visitor_exception_aborts opsModule vFailOp).2.1 [] [CircuitElement.operation 2]
      (CircuitElement.operation 1) [] [Event.visit_operation 1]
      (PyException.raised "op-raise") rfl rfl rfl rfl⟩,
   (C8_visitor_exception_aborts opsModule vFailRecord).2.2.1
     [Event.visit_operation 1, Event.visit_operation 2] "record-raise" rfl rfl rfl,
   (C8_visitor_exception_aborts opsModule vFailFinal).2.2.2
     [Event.visit_operation 1, Event.visit_operation 2] "final-raise" rfl rfl rfl rfl⟩

/-- C9: the qubit count of a module built by `from_circuit` is the
cardinality of the qubit set of the circuit. -/
theorem C9_num_qubits {Q Op : Type} (c : cirq.Circuit Q Op) (mod : Option pyqir.Module)
    (m : CirqModule Q Op) (h : CirqModule.from_circuit c mod = Except.ok m) :
    m.num_qubits = c.all_qubits.card := by
  cases mod with
  | some hm =>
    have h' : Except.ok
        ({ name := hm.source_filename, module := hm,
           num_qubits := c.all_qubits.card,
           elements := Register_init c.all_qubits :: c.all_operations.map Operation_init } :
          CirqModule Q Op) = Except.ok m := h
    have := Except.ok.inj h'
    rw [← this]
  | none =>
    unfold CirqModule.from_circuit at h
    cases hg : generate_module_id c with
    | error e => rw [hg] at h; exact absurd h (by simp)
    | ok mid =>
      rw [hg] at h
      have := Except.ok.inj h
      rw [← this]

/-- C9 witness: the qubit-count theorem applied to the concrete circuit `cJ`
(two qubits) and handle `h0`. -/
theorem C9_witness :
    CirqModule.from_circuit cJ (some h0) = Except.ok cmJ ∧
    cmJ.num_qubits = cJ.all_qubits.card :=
  ⟨rfl, C9_num_qubits cJ (some h0) cmJ rfl⟩

end QbraidQir
